import Mathlib

/-!
Verification of the deal-finder scan pipeline: a shallow embedding of
the evaluator (src/lib/ai-evaluator.ts), the acquisition adapter
(src/lib/craigslist.ts) and the scan orchestrator (src/lib/scheduler.ts),
together with theorems about deduplication, score clamping, fallback
behaviour, alert marking, batch isolation and price-bound handling.

External effects (the generative-model call, JSON.parse, the headless
browser, the mailer, the clock) are threaded as explicit environment
parameters; everything else is translated from the TypeScript source.
-/

/-! ## JavaScript numbers

The evaluator post-processes the model score with Math.round, Math.min,
Math.max and a >= comparison (ai-evaluator.ts lines 118-119).  JavaScript
numbers are modelled exactly as NaN, an infinity, or a rational value;
binary floating-point rounding is idealised away (every concrete value
appearing in the pipeline is exactly representable). -/

inductive JsNum where
  | nan
  | posInf
  | negInf
  | num (q : ℚ)
deriving DecidableEq

/-- Math.round: round half toward positive infinity; NaN and the two
infinities are returned unchanged.  For q = n/d with d > 0 this is
the floor of q + 1/2, computed as the floor division (2n + d) fdiv (2d)
so that it evaluates by integer arithmetic. -/
def jsRound : JsNum → JsNum
  | .nan => .nan
  | .posInf => .posInf
  | .negInf => .negInf
  | .num q => .num (((2 * q.num + (q.den : ℤ)).fdiv (2 * (q.den : ℤ)) : ℤ) : ℚ)

/-- Math.min on two arguments: NaN-propagating, otherwise the smaller. -/
def jsMin : JsNum → JsNum → JsNum
  | .nan, _ => .nan
  | _, .nan => .nan
  | .negInf, _ => .negInf
  | _, .negInf => .negInf
  | .posInf, b => b
  | a, .posInf => a
  | .num a, .num b => .num (min a b)

/-- Math.max on two arguments: NaN-propagating, otherwise the larger. -/
def jsMax : JsNum → JsNum → JsNum
  | .nan, _ => .nan
  | _, .nan => .nan
  | .posInf, _ => .posInf
  | _, .posInf => .posInf
  | .negInf, b => b
  | a, .negInf => a
  | .num a, .num b => .num (max a b)

/-- The JavaScript >= comparison: false whenever either side is NaN. -/
def jsGe : JsNum → JsNum → Bool
  | .nan, _ => false
  | _, .nan => false
  | .posInf, _ => true
  | _, .posInf => false
  | _, .negInf => true
  | .negInf, _ => false
  | .num a, .num b => decide (b ≤ a)

/-! ## JSON values

JSON.parse applied to the brace-delimited substring of the model response
yields an object; its properties are arbitrary JSON values and a property
read on a missing key yields undefined (modelled as none). -/

inductive Json where
  | null
  | bool (b : Bool)
  | num (q : ℚ)
  | str (s : String)
  | arr (elems : List Json)
  | obj (fields : List (String × Json))

/-- Property access o[k] on a parsed JSON object; none models undefined.
JSON.parse keeps one binding per key, so the association list is read by
first match. -/
def lookupField (fields : List (String × Json)) (k : String) : Option Json :=
  (fields.find? (fun kv => kv.1 == k)).map (fun kv => kv.2)

/-- Digits of a decimal numeral, most significant first. -/
def digitsToNat (ds : List Char) : ℕ :=
  ds.foldl (fun a c => a * 10 + (c.toNat - 48)) 0

/-- Split a character list into its leading decimal digits and the rest. -/
def takeDigits (cs : List Char) : List Char × List Char :=
  (cs.takeWhile Char.isDigit, cs.dropWhile Char.isDigit)

/-- Tail of a StrDecimalLiteral after the exponent marker: an optional
sign followed by one or more digits, consuming the whole rest. -/
def parseExpTail (base : ℚ) (r : List Char) : Option ℚ :=
  let (esign, r1) : ℤ × List Char :=
    match r with
    | '-' :: t => (-1, t)
    | '+' :: t => (1, t)
    | _ => (1, r)
  let (ed, r2) := takeDigits r1
  if ed = [] ∨ r2 ≠ [] then none
  else some (base * (10 : ℚ) ^ (esign * (digitsToNat ed : ℤ)))

/-- A StrUnsignedDecimalLiteral: digits, an optional fraction, an
optional exponent; the whole list must be consumed. -/
def parseDecimal (cs : List Char) : Option ℚ :=
  let (ip, r1) := takeDigits cs
  let (fp, r2) : List Char × List Char :=
    match r1 with
    | '.' :: r => takeDigits r
    | _ => ([], r1)
  if ip = [] ∧ fp = [] then none
  else
    let base : ℚ := (digitsToNat ip : ℚ) + (digitsToNat fp : ℚ) / ((10 : ℚ) ^ fp.length)
    match r2 with
    | [] => some base
    | 'e' :: r => parseExpTail base r
    | 'E' :: r => parseExpTail base r
    | _ => none

/-- JavaScript whitespace trimming as used by ToNumber and by
String.prototype.trim; the common whitespace characters are modelled. -/
def jsWhite (c : Char) : Bool :=
  c = ' ' || c = '\t' || c = '\n' || c = '\r'

/-- Trim both ends of a character list. -/
def trimChars (cs : List Char) : List Char :=
  ((cs.dropWhile jsWhite).reverse.dropWhile jsWhite).reverse

/-- String.prototype.trim. -/
def jsTrim (s : String) : String := ⟨trimChars s.data⟩

/-- ECMAScript ToNumber on a string: empty after trimming gives 0,
Infinity literals give infinities, decimal literals their value, and
anything else NaN.  The hexadecimal, octal and binary literal forms are
not modelled (such strings are treated as NaN); no analysed value
depends on them. -/
def strToNumber (s : String) : JsNum :=
  let cs := trimChars s.data
  if cs = [] then .num 0
  else
    let (sign, cs1) : ℤ × List Char :=
      match cs with
      | '-' :: t => (-1, t)
      | '+' :: t => (1, t)
      | _ => (1, cs)
    if cs1 = "Infinity".data then (if sign = 1 then .posInf else .negInf)
    else
      match parseDecimal cs1 with
      | some q => .num ((sign : ℚ) * q)
      | none => .nan

/-- String conversion of a single array element inside Array.join, as
needed by ToNumber on a one-element array: null renders as the empty
string (0), a number reparses to itself, a string reparses by
strToNumber, and the boolean and nested-container renderings are
non-numeric (NaN). -/
def arrElemToNumber : Json → JsNum
  | .null => .num 0
  | .bool _ => .nan
  | .num q => .num q
  | .str s => strToNumber s
  | .arr _ => .nan
  | .obj _ => .nan

/-- ECMAScript ToNumber applied to a property of the parsed JSON object,
as performed implicitly by Math.round(evaluation.score): undefined
(missing property) gives NaN, null gives 0, booleans 0/1, numbers
themselves, strings by the string grammar, arrays through their joined
string (empty gives 0, longer joins contain a comma and give NaN), and
plain objects give NaN. -/
def toNumber : Option Json → JsNum
  | none => .nan
  | some .null => .num 0
  | some (.bool b) => .num (if b then 1 else 0)
  | some (.num q) => .num q
  | some (.str s) => strToNumber s
  | some (.arr []) => .num 0
  | some (.arr [x]) => arrElemToNumber x
  | some (.arr _) => .nan
  | some (.obj _) => .nan

/-! ## The evaluator (src/lib/ai-evaluator.ts) -/

/-- The input record of evaluateListing (interface ListingForEvaluation). -/
structure ListingForEvaluation where
  title : String
  price : Option ℤ
  description : Option String
  imageUrls : List String
  query : String
  preferences : Option String
deriving DecidableEq

/-- Outcome of the awaited model call inside the try block: either some
awaited step threw (network error, model error), or the call returned
response text. -/
inductive ModelOutcome where
  | throws
  | returns (text : String)

/-- The DealEvaluation record produned by evaluateListing.  The source
casts the parsed JSON with an unchecked TypeScript assertion, so every
field other than score and isGoodDeal is whatever JSON value the parsed
object carried (none models undefined). -/
structure JsDealEvaluation where
  score : JsNum
  isGoodDeal : Bool
  reasoning : Option Json
  identifiedProduct : Option Json
  retailPriceRange : Option Json
  condition : Option Json
  marketComparison : Option Json

def lbrace : Char := Char.ofNat 123
def rbrace : Char := Char.ofNat 125

/-- Index of the last occurrence of a character. -/
def lastIdxOf (c : Char) (cs : List Char) : Option ℕ :=
  match cs.reverse.findIdx? (fun x => x = c) with
  | none => none
  | some k => some (cs.length - 1 - k)

/-- text.match of the regex: an open brace, any characters, a close
brace (ai-evaluator.ts line 113).  The leftmost match starts at the first
open brace and greedy matching extends to the last close brace of the
string; there is no match when no close brace follows the first open
brace. -/
def findJsonMatch (s : String) : Option String :=
  match s.data.findIdx? (fun x => x = lbrace), lastIdxOf rbrace s.data with
  | some i, some j => if i ≤ j then some ⟨(s.data.drop i).take (j + 1 - i)⟩ else none
  | _, _ => none

/-- The catch-branch result of evaluateListing (lines 124-132). -/
def fallbackEvaluation : JsDealEvaluation :=
  { score := .num 50
    isGoodDeal := false
    reasoning := some (.str "Unable to evaluate automatically.")
    identifiedProduct := some .null
    retailPriceRange := some .null
    condition := some (.str "unknown")
    marketComparison := some (.str "Unable to compare.") }

/-- Line 118: Math.max(1, Math.min(100, Math.round(score))). -/
def jsClamp (x : JsNum) : JsNum :=
  jsMax (.num 1) (jsMin (.num 100) (jsRound x))

/-- evaluateListing (ai-evaluator.ts lines 83-134).  The model call is
abstracted by respond (prompt construction and image attachment do not
affect the returned value) and the JSON.parse builtin by jsonParse,
where none models a thrown SyntaxError; both are external to the
repository.  All throwing paths land in the catch branch, so the
function is total and returns fallbackEvaluation instead of
propagating. -/
def evaluateListing (respond : ListingForEvaluation → ModelOutcome)
    (jsonParse : String → Option (List (String × Json)))
    (listing : ListingForEvaluation) : JsDealEvaluation :=
  match respond listing with
  | .throws => fallbackEvaluation
  | .returns raw =>
    match findJsonMatch (jsTrim raw) with
    | none => fallbackEvaluation
    | some m =>
      match jsonParse m with
      | none => fallbackEvaluation
      | some fields =>
        let score := jsClamp (toNumber (lookupField fields "score"))
        { score := score
          isGoodDeal := jsGe score (.num 70)
          reasoning := lookupField fields "reasoning"
          identifiedProduct := lookupField fields "identifiedProduct"
          retailPriceRange := lookupField fields "retailPriceRange"
          condition := lookupField fields "condition"
          marketComparison := lookupField fields "marketComparison" }

/-! ## The acquisition adapter (src/lib/craigslist.ts) -/

/-- Uppercase hexadecimal digit. -/
def hexDigit (n : ℕ) : Char :=
  if n < 10 then Char.ofNat (48 + n) else Char.ofNat (55 + n)

/-- Percent-encoding of one character in application/x-www-form-urlencoded
form, as URLSearchParams.toString does: unreserved characters unchanged,
space as a plus sign, everything else percent-encoded bytewise. -/
def formEncodeChar (c : Char) : List Char :=
  if c = ' ' then ['+']
  else if c.isAlphanum || c = '*' || c = '-' || c = '.' || c = '_' then [c]
  else (String.utf8EncodeChar c).foldr
    (fun b acc => '%' :: hexDigit (b.toNat / 16) :: hexDigit (b.toNat % 16) :: acc) []

def formEncode (s : String) : String :=
  ⟨s.data.foldr (fun c acc => formEncodeChar c ++ acc) []⟩

/-- URLSearchParams.toString: key=value pairs joined by ampersands. -/
def renderQueryString (params : List (String × String)) : String :=
  String.intercalate "&" (params.map (fun kv => formEncode kv.1 ++ "=" ++ formEncode kv.2))

/-- Decimal digits of a fractional part r/d by long division, at most
fuel digits; exact for the denominators arising from cent conversion. -/
def fracDigits : ℕ → ℕ → ℕ → List Char
  | 0, _, _ => []
  | _ + 1, 0, _ => []
  | fuel + 1, r, d => (Char.ofNat (48 + r * 10 / d)) :: fracDigits fuel (r * 10 % d) d

/-- Number.prototype.toString for the numeric parameter values: plain
decimal notation. -/
def qToString (q : ℚ) : String :=
  let sign := if q.num < 0 then "-" else ""
  let n := q.num.natAbs
  if q.den = 1 then sign ++ toString n
  else sign ++ toString (n / q.den) ++ "." ++ (⟨fracDigits 20 (n % q.den) q.den⟩ : String)

/-- The static zip-code-to-region table ZIP_TO_REGION of craigslist.ts,
keyed by the three leading digits. -/
def ZIP_TO_REGION : List (String × String) := [
  ("940", "sfbay"), ("941", "sfbay"), ("942", "sfbay"), ("943", "sfbay"), ("944", "sfbay"),
  ("945", "sfbay"), ("946", "sfbay"), ("947", "sfbay"), ("948", "sfbay"), ("949", "sfbay"),
  ("950", "sfbay"), ("951", "inlandempire"), ("952", "inlandempire"),
  ("900", "losangeles"), ("901", "losangeles"), ("902", "losangeles"), ("903", "losangeles"),
  ("904", "losangeles"), ("905", "losangeles"), ("906", "losangeles"), ("907", "losangeles"),
  ("908", "losangeles"), ("910", "losangeles"), ("911", "losangeles"), ("912", "losangeles"),
  ("913", "losangeles"), ("914", "losangeles"), ("915", "losangeles"), ("916", "losangeles"),
  ("917", "losangeles"), ("918", "losangeles"), ("920", "sandiego"), ("921", "sandiego"),
  ("922", "sandiego"), ("958", "sacramento"), ("959", "sacramento"), ("956", "sacramento"),
  ("100", "newyork"), ("101", "newyork"), ("102", "newyork"), ("103", "newyork"),
  ("104", "newyork"), ("110", "newyork"), ("111", "newyork"), ("112", "newyork"),
  ("113", "newyork"), ("114", "newyork"),
  ("750", "dallas"), ("751", "dallas"), ("752", "dallas"), ("753", "dallas"),
  ("770", "houston"), ("771", "houston"), ("772", "houston"), ("773", "houston"),
  ("774", "houston"), ("775", "houston"), ("787", "austin"), ("786", "austin"),
  ("606", "chicago"), ("607", "chicago"), ("608", "chicago"), ("600", "chicago"),
  ("980", "seattle"), ("981", "seattle"), ("982", "seattle"), ("983", "seattle"),
  ("984", "seattle"),
  ("802", "denver"), ("803", "denver"), ("804", "denver"), ("800", "denver"), ("801", "denver"),
  ("021", "boston"), ("022", "boston"), ("020", "boston"), ("024", "boston"),
  ("303", "atlanta"), ("300", "atlanta"), ("301", "atlanta"), ("302", "atlanta"),
  ("331", "miami"), ("330", "miami"), ("332", "miami"), ("333", "miami"),
  ("850", "phoenix"), ("851", "phoenix"), ("852", "phoenix"), ("853", "phoenix"),
  ("481", "detroit"), ("482", "detroit"), ("480", "detroit"), ("483", "detroit"),
  ("191", "philadelphia"), ("190", "philadelphia"), ("192", "philadelphia"),
  ("972", "portland"), ("970", "portland"), ("971", "portland"), ("973", "portland"),
  ("554", "minneapolis"), ("553", "minneapolis"), ("550", "minneapolis"), ("551", "minneapolis")]

/-- getRegionFromZipcode: look up the three leading digits of the zip
code, defaulting to the SF Bay Area region. -/
def getRegionFromZipcode (zipcode : String) : String :=
  ((ZIP_TO_REGION.lookup (⟨zipcode.data.take 3⟩ : String)).getD "sfbay")

/-- The keyword-to-category table CATEGORY_MAP, in source order. -/
def CATEGORY_MAP : List (String × String) := [
  ("bicycle", "bia"), ("bike", "bia"), ("car", "cta"), ("auto", "cta"),
  ("furniture", "fua"), ("electronics", "ela"), ("computer", "sya"),
  ("laptop", "sya"), ("phone", "moa"), ("motorcycle", "mca"), ("default", "sss")]

/-- Substring containment, String.prototype.includes. -/
def containsSub : List Char → List Char → Bool
  | [], pat => pat.isEmpty
  | c :: t, pat => pat.isPrefixOf (c :: t) || containsSub t pat

/-- getCategoryFromQuery: first table entry whose keyword occurs in the
lower-cased query, otherwise the default entry (the all-for-sale code). -/
def getCategoryFromQuery (query : String) : String :=
  let lq := query.data.map Char.toLower
  match CATEGORY_MAP.find? (fun kv => containsSub lq kv.1.data) with
  | some kv => kv.2
  | none => "sss"

structure BuildOptions where
  minPrice : Option ℚ
  maxPrice : Option ℚ
  radius : Option ℚ
deriving DecidableEq

/-- The URLSearchParams constructed by buildSearchUrl, in insertion
order (craigslist.ts lines 314-328).  The truthiness tests mean a 0
radius falls back to 25, and a 0 or undefined price bound adds no
min_price or max_price parameter at all. -/
def searchParams (query zipcode : String) (o : BuildOptions) : List (String × String) :=
  let radius : ℚ :=
    match o.radius with
    | some r => if r = 0 then 25 else r
    | none => 25
  let base := [("query", query), ("postal", zipcode),
    ("search_distance", qToString radius), ("sort", "date"), ("postedToday", "1")]
  let withMin :=
    match o.minPrice with
    | some m => if m = 0 then base else base ++ [("min_price", qToString m)]
    | none => base
  match o.maxPrice with
  | some m => if m = 0 then withMin else withMin ++ [("max_price", qToString m)]
  | none => withMin

/-- buildSearchUrl (craigslist.ts lines 306-330). -/
def buildSearchUrl (query zipcode : String) (o : BuildOptions) : String :=
  "https://" ++ getRegionFromZipcode zipcode ++ ".craigslist.org/search/" ++
    getCategoryFromQuery query ++ "?" ++ renderQueryString (searchParams query zipcode o)

/-- One listing as returned by the acquisition adapter (interface
CraigslistListing); the posted timestamp is carried as the raw datetime
attribute string from which the source builds its Date. -/
structure CraigslistListing where
  externalId : String
  title : String
  price : Option ℤ
  url : String
  description : Option String
  imageUrl : Option String
  imageUrls : List String
  location : Option String
  postedAt : Option String

/-- One attempt of the regex slash, digits, ".html" at the current
position: succeeds when the list starts with a slash followed by one or
more digits followed by the extension, giving the digit run. -/
def matchIdAt : List Char → Option String
  | '/' :: rest =>
    let ds := rest.takeWhile Char.isDigit
    if ds ≠ [] && ".html".data.isPrefixOf (rest.dropWhile Char.isDigit)
    then some (⟨ds⟩ : String) else none
  | _ => none

/-- Leftmost match of the listing-id regex. -/
def findIdMatch : List Char → Option String
  | [] => none
  | c :: rest =>
    match matchIdAt (c :: rest) with
    | some s => some s
    | none => findIdMatch rest

/-- extractListingId: the first slash-delimited numeric segment before a
.html extension, or the whole URL when no such segment exists. -/
def extractListingId (url : String) : String :=
  (findIdMatch url.data).getD url

/-- One row extracted from the search results page by the page eval
callback (craigslist.ts lines 444-470): link href, title text, parsed
price in dollars (none when the price text has no digits), thumbnail
source, neighbourhood text, datetime attribute. -/
structure BasicListing where
  url : String
  title : String
  price : Option ℤ
  imageUrl : Option String
  location : Option String
  dateStr : Option String

/-- Outcome of loading the search results page: the navigation threw
(timeout), the results selector never appeared, or rows were
extracted. -/
inductive NavOutcome where
  | navFail
  | selectorFail
  | loaded (rows : List BasicListing)

/-- External browser behaviour: nav gives the outcome of loading a given
search URL, detail gives the outcome of a detail-page visit, where none
means navigation or extraction threw. -/
structure BrowserEnv where
  nav : String → NavOutcome
  detail : String → Option (String × List String)

/-- fetchListingDetails (craigslist.ts lines 386-413): its try/catch
turns any detail-page failure into an empty description and image
list. -/
def fetchListingDetails (env : BrowserEnv) (url : String) : String × List String :=
  match env.detail url with
  | none => ("", [])
  | some d => d

structure FetchOptions where
  minPrice : Option ℚ
  maxPrice : Option ℚ
  limit : Option ℕ
deriving DecidableEq

/-- details.imageUrls[0] followed by the null fallback. -/
def jsHeadOr (l : List String) : Option String :=
  match l.head? with
  | some h => if h = "" then none else some h
  | none => none

/-- basic.imageUrl or-else the first detail image or-else null. -/
def imageUrlOf (b : Option String) (detailImgs : List String) : Option String :=
  match b with
  | some u => if u = "" then jsHeadOr detailImgs else some u
  | none => jsHeadOr detailImgs

/-- The CraigslistListing built from one basic row and its detail fetch
(craigslist.ts lines 480-497): absolute URL, id extraction, dollar to
cent conversion with a 0 price falsy to null, empty description falsy to
null. -/
def listingOfBasic (env : BrowserEnv) (zipcode : String) (b : BasicListing) :
    CraigslistListing :=
  let fullUrl :=
    if "http".data.isPrefixOf b.url.data then b.url
    else "https://" ++ getRegionFromZipcode zipcode ++ ".craigslist.org" ++ b.url
  let details := fetchListingDetails env fullUrl
  { externalId := extractListingId b.url
    title := b.title
    price :=
      match b.price with
      | some p => if p = 0 then none else some (p * 100)
      | none => none
    url := fullUrl
    description := if details.1 = "" then none else some details.1
    imageUrl := imageUrlOf b.imageUrl details.2
    imageUrls := details.2
    location := b.location
    postedAt :=
      match b.dateStr with
      | some d => if d = "" then none else some d
      | none => none }

/-- fetchCraigslistListings (craigslist.ts lines 418-511).  The whole
page interaction sits in a try block whose catch returns the empty
list, so navigation timeouts and a missing results selector yield [] and
nothing is raised; rows without a link or title are skipped; at most
min(10, rows) detail pages are visited. -/
def fetchCraigslistListings (env : BrowserEnv) (query zipcode : String)
    (options : FetchOptions) : List CraigslistListing :=
  let searchUrl := buildSearchUrl query zipcode
    { minPrice := options.minPrice, maxPrice := options.maxPrice, radius := none }
  let limit :=
    match options.limit with
    | some l => if l = 0 then 20 else l
    | none => 20
  match env.nav searchUrl with
  | .navFail => []
  | .selectorFail => []
  | .loaded rows =>
    let basicListings := rows.take limit
    (basicListings.take (min 10 basicListings.length)).foldl
      (fun acc b =>
        if b.url = "" || b.title = "" then acc
        else acc ++ [listingOfBasic env zipcode b]) []

/-! ## The scan orchestrator (src/lib/scheduler.ts)

The persistence layer is modelled as an explicit database value.  The
owning user of a search is inlined into the search row (the scheduler
reads only its email and name through the include on the query). -/

structure SearchRow where
  id : String
  userEmail : String
  userName : Option String
  query : String
  zipcode : String
  minPrice : Option ℤ
  maxPrice : Option ℤ
  preferences : Option String
  isActive : Bool
  lastChecked : Option ℕ
deriving DecidableEq

/-- Truthiness of a JSON value. -/
def jsTruthy : Json → Bool
  | .null => false
  | .bool b => b
  | .num q => decide (q ≠ 0)
  | .str s => decide (s ≠ "")
  | .arr _ => true
  | .obj _ => true

def jsTruthyOpt : Option Json → Bool
  | none => false
  | some v => jsTruthy v

/-- String conversion of a JSON value as used by Array.join inside the
dealReason construction; the fields joined there are strings in every
analysed run and the container renderings are simplified. -/
def jsDisplay : Json → String
  | .null => "null"
  | .bool b => if b then "true" else "false"
  | .str s => s
  | .num q => qToString q
  | .arr _ => ""
  | .obj _ => "[object Object]"

/-- scheduler.ts lines 73-76: the reasoning and market-comparison
fields, keeping only defined truthy values, joined by a space. -/
def dealReasonOf (ev : JsDealEvaluation) : String :=
  String.intercalate " "
    (([ev.reasoning, ev.marketComparison].filterMap
      (fun o => if jsTruthyOpt o then o else none)).map jsDisplay)

/-- Optional chaining v?.k: undefined on null or undefined, the property
on an object, undefined on other primitives. -/
def optChain (v : Option Json) (k : String) : Option Json :=
  match v with
  | some (.obj fields) => lookupField fields k
  | _ => none

/-- x or-else null on a property value: undefined and falsy values give
null (scheduler.ts lines 95-96). -/
def jsOrNull (v : Option Json) : Json :=
  match v with
  | some x => if jsTruthy x then x else .null
  | none => .null

/-- s or-else undefined on an optional string (scheduler.ts line 67):
null and the empty string both give undefined. -/
def jsStrOrUndef : Option String → Option String
  | some p => if p = "" then none else some p
  | none => none

/-- One persisted Listing row (prisma model Listing).  The datetime is
carried as its source string and createdAt is not modelled (nothing in
the scan pipeline reads it). -/
structure ListingRow where
  searchId : String
  externalId : String
  title : String
  price : Option ℤ
  url : String
  description : Option String
  imageUrl : Option String
  location : Option String
  postedAt : Option String
  dealScore : JsNum
  dealReason : String
  isGoodDeal : Bool
  alertSent : Bool
  identifiedProduct : Option Json
  retailPriceLow : Json
  retailPriceHigh : Json
  condition : Option Json

/-- The DealAlert record accumulated for the digest email. -/
structure DealAlert where
  title : String
  price : Option ℤ
  url : String
  dealScore : JsNum
  reasoning : Option Json
  imageUrl : Option String
  identifiedProduct : Option Json
  retailPriceRange : Option Json
  condition : Option Json
  marketComparison : Option Json

/-- The parameters of sendDealAlertEmail. -/
structure AlertEmailParams where
  recipientEmail : String
  recipientName : Option String
  searchQuery : String
  zipcode : String
  deals : List DealAlert

structure DB where
  searches : List SearchRow
  listings : List ListingRow

/-- External collaborators of one scan: the acquisition call (the
fetchCraigslistListings invocation with its browser session), the model
and JSON.parse behaviour feeding evaluateListing, presence of the
GEMINI_API_KEY credential, the mailer outcome, and the clock value used
for the lastChecked Date. -/
structure ScanEnv where
  fetch : String → String → FetchOptions → List CraigslistListing
  respond : ListingForEvaluation → ModelOutcome
  jsonParse : String → Option (List (String × Json))
  apiKeyPresent : Bool
  sendEmail : AlertEmailParams → Bool
  now : ℕ

/-- The scheduler converts stored cent bounds to dollars for the
acquisition call (lines 27-28); the conditional-operator truthiness test
means a stored 0 bound is passed as undefined. -/
def centsBound : Option ℤ → Option ℚ
  | some m => if m = 0 then none else some ((m : ℚ) / 100)
  | none => none

/-- The options record passed to fetchCraigslistListings (lines 26-30). -/
def fetchOptionsOf (s : SearchRow) : FetchOptions :=
  { minPrice := centsBound s.minPrice
    maxPrice := centsBound s.maxPrice
    limit := some 15 }

def keyMatches (sid e : String) (l : ListingRow) : Bool :=
  l.searchId == sid && l.externalId == e

/-- prisma.listing.findUnique on the (searchId, externalId) unique key,
reduced to existence (scheduler.ts lines 46-57). -/
def listingExists (db : DB) (sid e : String) : Bool :=
  db.listings.any (keyMatches sid e)

/-- Number of persisted listings carrying a given dedup key. -/
def countKey (db : DB) (sid e : String) : ℕ :=
  db.listings.countP (fun l => keyMatches sid e l)

structure LoopState where
  db : DB
  newListings : ℕ
  goodDeals : ℕ
  dealsToAlert : List DealAlert

/-- The ListingForEvaluation record passed to evaluateListing
(scheduler.ts lines 60-70). -/
def listingForEval (search : SearchRow) (listing : CraigslistListing) :
    ListingForEvaluation :=
  { title := listing.title
    price := listing.price
    description := listing.description
    imageUrls := listing.imageUrls
    query := search.query
    preferences := jsStrOrUndef search.preferences }

/-- The Listing row created by prisma.listing.create (lines 79-99). -/
def newListingRow (search : SearchRow) (listing : CraigslistListing)
    (ev : JsDealEvaluation) : ListingRow :=
  { searchId := search.id
    externalId := listing.externalId
    title := listing.title
    price := listing.price
    url := listing.url
    description := listing.description
    imageUrl := listing.imageUrl
    location := listing.location
    postedAt := listing.postedAt
    dealScore := ev.score
    dealReason := dealReasonOf ev
    isGoodDeal := ev.isGoodDeal
    alertSent := false
    identifiedProduct := ev.identifiedProduct
    retailPriceLow := jsOrNull (optChain ev.retailPriceRange "low")
    retailPriceHigh := jsOrNull (optChain ev.retailPriceRange "high")
    condition := ev.condition }

/-- The DealAlert pushed for a good deal (lines 105-116). -/
def alertOf (row : ListingRow) (ev : JsDealEvaluation) : DealAlert :=
  { title := row.title
    price := row.price
    url := row.url
    dealScore := row.dealScore
    reasoning := ev.reasoning
    imageUrl := row.imageUrl
    identifiedProduct := ev.identifiedProduct
    retailPriceRange := ev.retailPriceRange
    condition := ev.condition
    marketComparison := ev.marketComparison }

/-- One iteration of the candidate loop (lines 44-121): skip when the
(searchId, externalId) key already has a persisted row, otherwise
evaluate, insert, count, and accumulate good deals into the alert
batch.  Each insert is persisted before the next candidate is examined,
exactly as the awaited create is. -/
def processCandidate (env : ScanEnv) (search : SearchRow) (st : LoopState)
    (listing : CraigslistListing) : LoopState :=
  if listingExists st.db search.id listing.externalId then st
  else
    let ev := evaluateListing env.respond env.jsonParse (listingForEval search listing)
    let row := newListingRow search listing ev
    let db2 : DB := { st.db with listings := st.db.listings ++ [row] }
    if row.isGoodDeal then
      { db := db2
        newListings := st.newListings + 1
        goodDeals := st.goodDeals + 1
        dealsToAlert := st.dealsToAlert ++ [alertOf row ev] }
    else
      { db := db2
        newListings := st.newListings + 1
        goodDeals := st.goodDeals
        dealsToAlert := st.dealsToAlert }

/-- The whole candidate loop, threading the persisted state. -/
def scanLoop (env : ScanEnv) (search : SearchRow) (st : LoopState)
    (candidates : List CraigslistListing) : LoopState :=
  candidates.foldl (processCandidate env search) st

/-- prisma.search.findUnique with the user included (lines 14-17). -/
def findSearch (db : DB) (sid : String) : Option SearchRow :=
  db.searches.find? (fun s => s.id == sid)

/-- prisma.search.update setting lastChecked (lines 124-127). -/
def updateLastChecked (db : DB) (sid : String) (now : ℕ) : DB :=
  { db with searches := db.searches.map (fun s =>
      if s.id == sid then { s with lastChecked := some now } else s) }

/-- The per-row effect of the bulk update of lines 142-149: a row of
this search with a good deal and an unsent alert gets alertSent set,
every other row is unchanged. -/
def flipAlert (sid : String) (l : ListingRow) : ListingRow :=
  if l.searchId == sid && l.isGoodDeal && !l.alertSent
  then { l with alertSent := true } else l

/-- prisma.listing.updateMany of lines 142-149. -/
def markAlerts (db : DB) (sid : String) : DB :=
  { db with listings := db.listings.map (flipAlert sid) }

/-- The loop state reached after acquiring and processing the
candidates of this search. -/
def scanState (env : ScanEnv) (search : SearchRow) (db : DB) : LoopState :=
  scanLoop env search ⟨db, 0, 0, []⟩
    (env.fetch search.query search.zipcode (fetchOptionsOf search))

/-- The digest parameters passed to sendDealAlertEmail (lines 132-138). -/
def alertParamsOf (env : ScanEnv) (search : SearchRow) (db : DB) : AlertEmailParams :=
  { recipientEmail := search.userEmail
    recipientName := search.userName
    searchQuery := search.query
    zipcode := search.zipcode
    deals := (scanState env search db).dealsToAlert }

structure ScanResult where
  newListings : ℕ
  goodDeals : ℕ
  alertsSent : ℕ
deriving DecidableEq

/-- processSearch (scheduler.ts lines 9-160): load the search, bail out
on a missing or inactive search, acquire candidates, bail out with zero
counts when the AI credential is missing (before the lastChecked
update), run the candidate loop, update lastChecked, then notify once
for a nonempty alert batch and on success run the bulk alert update.
In the source the acquisition call happens before the credential check;
as the pure acquisition value is unused on that path the two orders are
observationally identical. -/
def processSearch (env : ScanEnv) (db : DB) (searchId : String) : DB × ScanResult :=
  match findSearch db searchId with
  | none => (db, ⟨0, 0, 0⟩)
  | some search =>
    if !search.isActive then (db, ⟨0, 0, 0⟩)
    else if !env.apiKeyPresent then (db, ⟨0, 0, 0⟩)
    else
      let st := scanState env search db
      let db1 := updateLastChecked st.db search.id env.now
      if st.dealsToAlert.isEmpty then (db1, ⟨st.newListings, st.goodDeals, 0⟩)
      else if env.sendEmail (alertParamsOf env search db) then
        (markAlerts db1 search.id, ⟨st.newListings, st.goodDeals, st.dealsToAlert.length⟩)
      else (db1, ⟨st.newListings, st.goodDeals, 0⟩)

/-- A per-search outcome inside the batch loop: the try block either
completes with the processSearch value, or a thrown error (for example a
persistence failure) is caught after some prefix of the search effects
was persisted. -/
inductive SearchOutcome where
  | ok (db : DB) (res : ScanResult)
  | threw (db : DB)

/-- Failure injection for the batch loop: throws says whether processing
a given search id throws, and partialDb gives the database state such a
failed attempt leaves behind. -/
structure BatchEnv where
  scan : ScanEnv
  throws : String → Bool
  partialDb : String → DB → DB

def runOneSearch (benv : BatchEnv) (db : DB) (sid : String) : SearchOutcome :=
  if benv.throws sid then .threw (benv.partialDb sid db)
  else
    let r := processSearch benv.scan db sid
    .ok r.1 r.2

/-- The body of the batch loop (scheduler.ts lines 185-197): accumulate
the three counts on success, log and continue on a thrown error. -/
def batchStep (benv : BatchEnv) (acc : DB × ℕ × ℕ × ℕ) (sid : String) :
    DB × ℕ × ℕ × ℕ :=
  match runOneSearch benv acc.1 sid with
  | .ok db r => (db, acc.2.1 + r.newListings, acc.2.2.1 + r.goodDeals,
      acc.2.2.2 + r.alertsSent)
  | .threw db => (db, acc.2)

def runBatch (benv : BatchEnv) (db : DB) (sids : List String) : DB × ℕ × ℕ × ℕ :=
  sids.foldl (batchStep benv) (db, 0, 0, 0)

structure BatchResult where
  searchesProcessed : ℕ
  totalNewListings : ℕ
  totalGoodDeals : ℕ
  totalAlertsSent : ℕ
deriving DecidableEq

/-- processAllSearches (scheduler.ts lines 165-213): query the active
searches once, run them sequentially with per-search failure isolation,
and report the length of the active list as searchesProcessed. -/
def processAllSearches (benv : BatchEnv) (db : DB) : DB × BatchResult :=
  let active := db.searches.filter (fun s => s.isActive)
  let r := runBatch benv db (active.map (fun s => s.id))
  (r.1, ⟨active.length, r.2.1, r.2.2.1, r.2.2.2⟩)

/-- The listing row stored under a given dedup key, if any. -/
def lookupListing (db : DB) (sid e : String) : Option ListingRow :=
  db.listings.find? (keyMatches sid e)

/-! ## Derived predicates -/

/-- The well-formedness the spec asserts of an evaluator score: an
integral value between 1 and 100. -/
def isIntInRange (x : JsNum) : Prop :=
  ∃ n : ℤ, x = .num (n : ℚ) ∧ 1 ≤ n ∧ n ≤ 100

/-- The five condition labels of the assessment schema. -/
def validConditionLabels : List String :=
  ["excellent", "good", "fair", "poor", "unknown"]

/-- Componentwise sum of the three batch counters. -/
def addCounts (a b : ℕ × ℕ × ℕ) : ℕ × ℕ × ℕ :=
  (a.1 + b.1, a.2.1 + b.2.1, a.2.2 + b.2.2)

/-! ## Concrete instances used by witnesses and counterexamples -/

def listing0 : ListingForEvaluation :=
  { title := "Trek Domane", price := some 20000, description := some "good bike",
    imageUrls := [], query := "road bike", preferences := none }

def respondThrow : ListingForEvaluation → ModelOutcome := fun _ => .throws

def jsonParseNone : String → Option (List (String × Json)) := fun _ => none

def respondProse : ListingForEvaluation → ModelOutcome :=
  fun _ => .returns "no json here"

def textNoScore : String := "\x7b\"isGoodDeal\": true\x7d"

def fieldsNoScore : List (String × Json) := [("isGoodDeal", Json.bool true)]

def respondNoScore : ListingForEvaluation → ModelOutcome :=
  fun _ => .returns textNoScore

def jsonParseNoScore : String → Option (List (String × Json)) :=
  fun s => if s = textNoScore then some fieldsNoScore else none

def text150 : String := "\x7b\"score\": 150\x7d"

def fields150 : List (String × Json) := [("score", Json.num 150)]

def respond150 : ListingForEvaluation → ModelOutcome := fun _ => .returns text150

def jsonParse150 : String → Option (List (String × Json)) :=
  fun s => if s = text150 then some fields150 else none

def text60 : String := "\x7b\"score\": 60, \"isGoodDeal\": true\x7d"

def fields60 : List (String × Json) :=
  [("score", Json.num 60), ("isGoodDeal", Json.bool true)]

def respond60 : ListingForEvaluation → ModelOutcome := fun _ => .returns text60

def jsonParse60 : String → Option (List (String × Json)) :=
  fun s => if s = text60 then some fields60 else none

def textMint : String := "\x7b\"score\": 80, \"condition\": \"mint\"\x7d"

def fieldsMint : List (String × Json) :=
  [("score", Json.num 80), ("condition", Json.str "mint")]

def respondMint : ListingForEvaluation → ModelOutcome := fun _ => .returns textMint

def jsonParseMint : String → Option (List (String × Json)) :=
  fun s => if s = textMint then some fieldsMint else none

def textGood : String := "\x7b\"score\": 90\x7d"

def fieldsGood : List (String × Json) := [("score", Json.num 90)]

def respondGood : ListingForEvaluation → ModelOutcome := fun _ => .returns textGood

def jsonParseGood : String → Option (List (String × Json)) :=
  fun s => if s = textGood then some fieldsGood else none

/-- A fresh candidate produced by the acquisition adapter. -/
def candNew : CraigslistListing :=
  { externalId := "7001", title := "good bike", price := some 50000, url := "u1",
    description := none, imageUrl := none, imageUrls := [], location := none,
    postedAt := none }

def search5 : SearchRow :=
  { id := "s1", userEmail := "user@example.com", userName := none, query := "bike",
    zipcode := "94110", minPrice := none, maxPrice := none, preferences := none,
    isActive := true, lastChecked := none }

/-- A good-deal listing persisted by an earlier scan whose notification
never succeeded: alertSent is still false. -/
def oldRow : ListingRow :=
  { searchId := "s1", externalId := "6000", title := "old bike", price := some 40000,
    url := "u0", description := none, imageUrl := none, location := none,
    postedAt := none, dealScore := .num 80, dealReason := "old", isGoodDeal := true,
    alertSent := false, identifiedProduct := none, retailPriceLow := .null,
    retailPriceHigh := .null, condition := none }

def env5 : ScanEnv :=
  { fetch := fun _ _ _ => [candNew], respond := respondGood,
    jsonParse := jsonParseGood, apiKeyPresent := true,
    sendEmail := fun _ => true, now := 7 }

def db5 : DB := { searches := [search5], listings := [oldRow] }

def env6 : ScanEnv :=
  { fetch := fun _ _ _ => [], respond := respondThrow, jsonParse := jsonParseNone,
    apiKeyPresent := false, sendEmail := fun _ => false, now := 9 }

def db6 : DB := { searches := [search5], listings := [] }

def search7 (sid : String) : SearchRow := { search5 with id := sid }

def db7 : DB :=
  { searches := [search7 "a", search7 "b", search7 "c"], listings := [] }

def benv7 : BatchEnv :=
  { scan := env5, throws := fun sid => sid == "b", partialDb := fun _ d => d }

def env8 : BrowserEnv := { nav := fun _ => .navFail, detail := fun _ => none }

def opts10 : BuildOptions := { minPrice := some 0, maxPrice := none, radius := none }

def searchZeroMin : SearchRow := { search5 with minPrice := some 0, maxPrice := some 0 }

/-! ## Helper lemmas -/

/-- Unfolding of the success path of evaluateListing. -/
theorem evaluateListing_success
    (respond : ListingForEvaluation → ModelOutcome)
    (jsonParse : String → Option (List (String × Json)))
    (listing : ListingForEvaluation) (text m : String)
    (fields : List (String × Json))
    (hr : respond listing = .returns text)
    (hm : findJsonMatch (jsTrim text) = some m)
    (hp : jsonParse m = some fields) :
    evaluateListing respond jsonParse listing =
      { score := jsClamp (toNumber (lookupField fields "score"))
        isGoodDeal := jsGe (jsClamp (toNumber (lookupField fields "score"))) (.num 70)
        reasoning := lookupField fields "reasoning"
        identifiedProduct := lookupField fields "identifiedProduct"
        retailPriceRange := lookupField fields "retailPriceRange"
        condition := lookupField fields "condition"
        marketComparison := lookupField fields "marketComparison" } := by
  unfold evaluateListing
  rw [hr]
  simp only [hm, hp]

/-- Unfolding of the throwing path of evaluateListing. -/
theorem evaluateListing_throws
    (respond : ListingForEvaluation → ModelOutcome)
    (jsonParse : String → Option (List (String × Json)))
    (listing : ListingForEvaluation)
    (hr : respond listing = .throws) :
    evaluateListing respond jsonParse listing = fallbackEvaluation := by
  unfold evaluateListing
  rw [hr]

/-- Unfolding of the no-JSON-match path of evaluateListing. -/
theorem evaluateListing_noMatch
    (respond : ListingForEvaluation → ModelOutcome)
    (jsonParse : String → Option (List (String × Json)))
    (listing : ListingForEvaluation) (text : String)
    (hr : respond listing = .returns text)
    (hm : findJsonMatch (jsTrim text) = none) :
    evaluateListing respond jsonParse listing = fallbackEvaluation := by
  unfold evaluateListing
  rw [hr]
  simp only [hm]

/-- Unfolding of the JSON.parse-failure path of evaluateListing. -/
theorem evaluateListing_parseFail
    (respond : ListingForEvaluation → ModelOutcome)
    (jsonParse : String → Option (List (String × Json)))
    (listing : ListingForEvaluation) (text m : String)
    (hr : respond listing = .returns text)
    (hm : findJsonMatch (jsTrim text) = some m)
    (hp : jsonParse m = none) :
    evaluateListing respond jsonParse listing = fallbackEvaluation := by
  unfold evaluateListing
  rw [hr]
  simp only [hm, hp]

/-- The clamp of line 118 lands in the integer range 1..100 whenever its
input is not NaN. -/
theorem jsClamp_mem (x : JsNum) (h : x ≠ .nan) : isIntInRange (jsClamp x) := by
  cases x with
  | nan => exact absurd rfl h
  | posInf => exact ⟨100, rfl, by norm_num, by norm_num⟩
  | negInf => exact ⟨1, rfl, by norm_num, by norm_num⟩
  | num q =>
    set r : ℤ := (2 * q.num + (q.den : ℤ)).fdiv (2 * (q.den : ℤ)) with hr
    refine ⟨max 1 (min 100 r), ?_, le_max_left _ _, ?_⟩
    · show JsNum.num (max 1 (min 100 ((r : ℤ) : ℚ))) = JsNum.num ((max 1 (min 100 r) : ℤ) : ℚ)
      push_cast
      rfl
    · exact max_le (by norm_num) (le_trans (min_le_left _ _) (by norm_num))

/-! ## Claim theorems: the evaluator -/

/-- C2: whenever a JSON object is successfully parsed from the model
response, the returned isGoodDeal flag is recomputed as clamped score
at least 70, regardless of the isGoodDeal boolean carried by the parsed
object. -/
theorem goodDeal_derived_from_clamped_score
    (respond : ListingForEvaluation → ModelOutcome)
    (jsonParse : String → Option (List (String × Json)))
    (listing : ListingForEvaluation) (text m : String)
    (fields : List (String × Json))
    (hr : respond listing = .returns text)
    (hm : findJsonMatch (jsTrim text) = some m)
    (hp : jsonParse m = some fields) :
    (evaluateListing respond jsonParse listing).isGoodDeal
      = jsGe ((evaluateListing respond jsonParse listing).score) (.num 70) ∧
    (evaluateListing respond jsonParse listing).score
      = jsClamp (toNumber (lookupField fields "score")) := by
  rw [evaluateListing_success respond jsonParse listing text m fields hr hm hp]
  exact ⟨rfl, rfl⟩

/-- C2 witness: a parsed object reporting isGoodDeal true with score 60
still yields isGoodDeal false, since the clamped score 60 is below 70. -/
theorem goodDeal_derived_from_clamped_score_witness :
    lookupField fields60 "isGoodDeal" = some (.bool true) ∧
    ((evaluateListing respond60 jsonParse60 listing0).isGoodDeal
      = jsGe ((evaluateListing respond60 jsonParse60 listing0).score) (.num 70)) ∧
    (evaluateListing respond60 jsonParse60 listing0).isGoodDeal = false :=
  ⟨rfl,
   (goodDeal_derived_from_clamped_score respond60 jsonParse60 listing0
      text60 text60 fields60 rfl rfl rfl).1,
   rfl⟩

/-- C3 counterexample: a successfully parsed object with no score field
coerces to NaN, so the returned score is NaN, not an integer in the
range 1..100 as the claim asserts for missing score values. -/
theorem score_not_clamped_on_missing_field :
    (evaluateListing respondNoScore jsonParseNoScore listing0).score = .nan ∧
    ¬ isIntInRange (evaluateListing respondNoScore jsonParseNoScore listing0).score := by
  refine ⟨rfl, ?_⟩
  intro h
  obtain ⟨n, hn, -, -⟩ := h
  have h2 : JsNum.nan = JsNum.num (n : ℚ) := by
    calc JsNum.nan = (evaluateListing respondNoScore jsonParseNoScore listing0).score := rfl
    _ = JsNum.num (n : ℚ) := hn
  exact JsNum.noConfusion h2

/-- C3 (amended): for a successfully parsed model response the returned
score is an integer in 1..100 whenever the ToNumber coercion of the
parsed score field is not NaN (in particular a raw 150 clamps to 100
and a raw 0 clamps to 1); a non-numeric or missing score field instead
yields a NaN score. -/
theorem score_clamped_when_numeric
    (respond : ListingForEvaluation → ModelOutcome)
    (jsonParse : String → Option (List (String × Json)))
    (listing : ListingForEvaluation) (text m : String)
    (fields : List (String × Json))
    (hr : respond listing = .returns text)
    (hm : findJsonMatch (jsTrim text) = some m)
    (hp : jsonParse m = some fields) :
    (toNumber (lookupField fields "score") ≠ .nan →
      isIntInRange (evaluateListing respond jsonParse listing).score) ∧
    (toNumber (lookupField fields "score") = .num 150 →
      (evaluateListing respond jsonParse listing).score = .num 100) ∧
    (toNumber (lookupField fields "score") = .num 0 →
      (evaluateListing respond jsonParse listing).score = .num 1) ∧
    (toNumber (lookupField fields "score") = .nan →
      (evaluateListing respond jsonParse listing).score = .nan) := by
  rw [evaluateListing_success respond jsonParse listing text m fields hr hm hp]
  refine ⟨fun h => jsClamp_mem _ h, fun h => by rw [h]; rfl,
    fun h => by rw [h]; rfl, fun h => by rw [h]; rfl⟩

/-- C3 witness: a parsed score of 150 is clamped to 100, an integer in
range. -/
theorem score_clamped_when_numeric_witness :
    isIntInRange (evaluateListing respond150 jsonParse150 listing0).score ∧
    (evaluateListing respond150 jsonParse150 listing0).score = .num 100 := by
  have h := score_clamped_when_numeric respond150 jsonParse150 listing0
    text150 text150 fields150 rfl rfl rfl
  exact ⟨h.1 (by decide), h.2.1 rfl⟩

/-- C4: if the model call throws, or the response contains no JSON
object (no brace-delimited match, or JSON.parse rejects the match), the
evaluator returns exactly the neutral fallback assessment; the
embedding is a total function, so no failure propagates. -/
theorem fallback_on_evaluation_failure
    (respond : ListingForEvaluation → ModelOutcome)
    (jsonParse : String → Option (List (String × Json)))
    (listing : ListingForEvaluation) :
    (respond listing = .throws →
      evaluateListing respond jsonParse listing = fallbackEvaluation) ∧
    (∀ text, respond listing = .returns text →
      (findJsonMatch (jsTrim text) = none ∨
        ∀ m, findJsonMatch (jsTrim text) = some m → jsonParse m = none) →
      evaluateListing respond jsonParse listing = fallbackEvaluation) ∧
    fallbackEvaluation.score = .num 50 ∧
    fallbackEvaluation.isGoodDeal = false ∧
    fallbackEvaluation.condition = some (.str "unknown") ∧
    fallbackEvaluation.identifiedProduct = some .null ∧
    fallbackEvaluation.retailPriceRange = some .null := by
  refine ⟨?_, ?_, rfl, rfl, rfl, rfl, rfl⟩
  · exact fun h => evaluateListing_throws respond jsonParse listing h
  · intro text hr hnone
    cases hfm : findJsonMatch (jsTrim text) with
    | none => exact evaluateListing_noMatch respond jsonParse listing text hr hfm
    | some m =>
      rcases hnone with h | h
      · rw [hfm] at h
        exact Option.noConfusion h
      · exact evaluateListing_parseFail respond jsonParse listing text m hr hfm (h m hfm)

/-- C4 witness: a throwing model call and a prose-only response both
yield the fallback assessment. -/
theorem fallback_on_evaluation_failure_witness :
    evaluateListing respondThrow jsonParseNone listing0 = fallbackEvaluation ∧
    evaluateListing respondProse jsonParseNone listing0 = fallbackEvaluation :=
  ⟨(fallback_on_evaluation_failure respondThrow jsonParseNone listing0).1 rfl,
   (fallback_on_evaluation_failure respondProse jsonParseNone listing0).2.1
     "no json here" rfl (Or.inl rfl)⟩

/-- C9 counterexample: on the success path the condition field of the
parsed object is returned unvalidated, so a parsed condition "mint" is
returned although it is not one of the five schema labels. -/
theorem condition_label_not_validated :
    (evaluateListing respondMint jsonParseMint listing0).condition
      = some (.str "mint") ∧
    "mint" ∉ validConditionLabels := ⟨rfl, by decide⟩

/-- C9 (amended): the fallback path returns the condition label
"unknown", which is one of the five schema labels, but the success path
returns exactly the condition property of the parsed JSON object with
no validation against the label set. -/
theorem condition_label_cases
    (respond : ListingForEvaluation → ModelOutcome)
    (jsonParse : String → Option (List (String × Json)))
    (listing : ListingForEvaluation) :
    (respond listing = .throws →
      (evaluateListing respond jsonParse listing).condition = some (.str "unknown")) ∧
    (∀ text m fields, respond listing = .returns text →
      findJsonMatch (jsTrim text) = some m → jsonParse m = some fields →
      (evaluateListing respond jsonParse listing).condition
        = lookupField fields "condition") ∧
    "unknown" ∈ validConditionLabels := by
  refine ⟨?_, ?_, by decide⟩
  · intro h
    rw [evaluateListing_throws respond jsonParse listing h]
    rfl
  · intro text m fields hr hm hp
    rw [evaluateListing_success respond jsonParse listing text m fields hr hm hp]

/-- C9 witness: the unvalidated pass-through and the fallback label at
concrete inputs. -/
theorem condition_label_cases_witness :
    (evaluateListing respondMint jsonParseMint listing0).condition
      = lookupField fieldsMint "condition" ∧
    (evaluateListing respondThrow jsonParseNone listing0).condition
      = some (.str "unknown") :=
  ⟨(condition_label_cases respondMint jsonParseMint listing0).2.1
      textMint textMint fieldsMint rfl rfl rfl,
   (condition_label_cases respondThrow jsonParseNone listing0).1 rfl⟩

/-- Appending one row changes a key count by one exactly when the row
carries that key. -/
theorem countKey_append (db : DB) (row : ListingRow) (sid e : String) :
    countKey { db with listings := db.listings ++ [row] } sid e
      = countKey db sid e + (if keyMatches sid e row then 1 else 0) := by
  simp [countKey, List.countP_append, List.countP_cons]

/-- A negative findUnique answer means the key count is zero. -/
theorem countKey_eq_zero_of_not_exists (db : DB) (sid e : String)
    (h : listingExists db sid e = false) : countKey db sid e = 0 := by
  unfold listingExists at h
  unfold countKey
  rw [List.countP_eq_zero]
  intro a ha hpa
  have h2 : db.listings.any (keyMatches sid e) = true :=
    List.any_eq_true.mpr ⟨a, ha, hpa⟩
  rw [h] at h2
  exact Bool.noConfusion h2

/-- The database change of one candidate iteration: unchanged on a
dedup hit, one appended row otherwise. -/
theorem processCandidate_db (env : ScanEnv) (search : SearchRow)
    (st : LoopState) (c : CraigslistListing) :
    (processCandidate env search st c).db =
      if listingExists st.db search.id c.externalId then st.db
      else { st.db with listings := st.db.listings ++
        [newListingRow search c
          (evaluateListing env.respond env.jsonParse (listingForEval search c))] } := by
  unfold processCandidate
  by_cases h : listingExists st.db search.id c.externalId
  · simp [h]
  · simp only [h, if_false, Bool.false_eq_true]
    split <;> rfl

/-- One candidate iteration never touches the searches table. -/
theorem processCandidate_searches (env : ScanEnv) (search : SearchRow)
    (st : LoopState) (c : CraigslistListing) :
    (processCandidate env search st c).db.searches = st.db.searches := by
  rw [processCandidate_db]
  split <;> rfl

/-- The candidate loop never touches the searches table. -/
theorem scanLoop_searches (env : ScanEnv) (search : SearchRow) :
    ∀ (cs : List CraigslistListing) (st : LoopState),
      (scanLoop env search st cs).db.searches = st.db.searches := by
  intro cs
  induction cs with
  | nil => intro st; rfl
  | cons c rest ih =>
    intro st
    have h := ih (processCandidate env search st c)
    unfold scanLoop at h ⊢
    rw [List.foldl_cons, h, processCandidate_searches]

/-- The dedup invariant of the candidate loop: a key count never
decreases, and never exceeds max of its initial value and one, because
an insert happens only at count zero. -/
theorem scanLoop_countKey (env : ScanEnv) (search : SearchRow) (sid e : String) :
    ∀ (cs : List CraigslistListing) (st : LoopState),
      countKey st.db sid e ≤ countKey (scanLoop env search st cs).db sid e ∧
      countKey (scanLoop env search st cs).db sid e ≤ max (countKey st.db sid e) 1 := by
  intro cs
  induction cs with
  | nil => intro st; exact ⟨le_refl _, le_max_left _ _⟩
  | cons c rest ih =>
    intro st
    have hstep : countKey st.db sid e
          ≤ countKey (processCandidate env search st c).db sid e ∧
        countKey (processCandidate env search st c).db sid e
          ≤ max (countKey st.db sid e) 1 := by
      rw [processCandidate_db]
      by_cases h : listingExists st.db search.id c.externalId
      · simp only [h, if_true]
        exact ⟨le_refl _, le_max_left _ _⟩
      · have hb : listingExists st.db search.id c.externalId = false :=
          Bool.eq_false_iff.mpr h
        simp only [h, if_false, Bool.false_eq_true]
        rw [countKey_append]
        by_cases hk : keyMatches sid e (newListingRow search c
            (evaluateListing env.respond env.jsonParse (listingForEval search c)))
        · have hkeq : search.id = sid ∧ c.externalId = e := by
            have hk2 := hk
            simp only [keyMatches, newListingRow, Bool.and_eq_true, beq_iff_eq] at hk2
            exact hk2
          obtain ⟨hs, he⟩ := hkeq
          have h0 : countKey st.db sid e = 0 := by
            rw [← hs, ← he]
            exact countKey_eq_zero_of_not_exists st.db search.id c.externalId hb
          rw [h0]
          simp [hk]
        · simp [hk]
    have hrest := ih (processCandidate env search st c)
    unfold scanLoop at hrest ⊢
    rw [List.foldl_cons]
    refine ⟨le_trans hstep.1 hrest.1, le_trans hrest.2 ?_⟩
    exact max_le (le_trans hstep.2 (le_refl _)) (le_max_right _ _)

/-- The bulk alert update preserves every dedup key. -/
theorem keyMatches_flipAlert (sid0 sid e : String) (l : ListingRow) :
    keyMatches sid e (flipAlert sid0 l) = keyMatches sid e l := by
  unfold flipAlert
  split <;> rfl

/-- The bulk alert update preserves every key count. -/
theorem countKey_markAlerts (db : DB) (sid0 sid e : String) :
    countKey (markAlerts db sid0) sid e = countKey db sid e := by
  unfold countKey markAlerts
  rw [List.countP_map]
  congr 1
  funext l
  simp only [Function.comp_apply]
  exact keyMatches_flipAlert sid0 sid e l

/-- One whole scan both preserves existing keys and inserts a key only
when it was absent. -/
theorem processSearch_countKey (env : ScanEnv) (db : DB) (sid0 sid e : String) :
    countKey db sid e ≤ countKey (processSearch env db sid0).1 sid e ∧
    countKey (processSearch env db sid0).1 sid e ≤ max (countKey db sid e) 1 := by
  unfold processSearch
  cases hf : findSearch db sid0 with
  | none => exact ⟨le_refl _, le_max_left _ _⟩
  | some s =>
    have hloop := scanLoop_countKey env s sid e
      (env.fetch s.query s.zipcode (fetchOptionsOf s)) ⟨db, 0, 0, []⟩
    by_cases ha : s.isActive <;> by_cases hk : env.apiKeyPresent <;>
      simp only [ha, hk, Bool.not_true, Bool.not_false, if_true, if_false,
        Bool.false_eq_true, Bool.true_eq_false, ite_self]
    all_goals try exact ⟨le_refl _, le_max_left _ _⟩
    split
    · exact hloop
    · split
      · rw [countKey_markAlerts]
        exact hloop
      · exact hloop

/-! ## Claim theorems: the orchestrator -/

/-- C1: with a fixed acquisition result set, two consecutive runs of
processSearch insert each dedup key at most once in total: the key
count never decreases, and after both runs it is bounded by max of its
initial value and one, so a key that already had a persisted Listing
gains no row at all (the candidate is skipped) and a fresh key gains at
most one row across both runs, whatever the candidate order. -/
theorem processSearch_dedup_two_runs (env : ScanEnv) (db : DB) (sid0 sid e : String) :
    countKey db sid e ≤ countKey (processSearch env db sid0).1 sid e ∧
    countKey (processSearch env db sid0).1 sid e
      ≤ countKey (processSearch env (processSearch env db sid0).1 sid0).1 sid e ∧
    countKey (processSearch env (processSearch env db sid0).1 sid0).1 sid e
      ≤ max (countKey db sid e) 1 := by
  have h1 := processSearch_countKey env db sid0 sid e
  have h2 := processSearch_countKey env (processSearch env db sid0).1 sid0 sid e
  exact ⟨h1.1, h2.1, le_trans h2.2 (max_le h1.2 (le_max_right _ _))⟩

/-- The candidate loop only appends rows, every appended row belongs to
the processed search and starts with an unsent alert. -/
theorem scanLoop_listings (env : ScanEnv) (search : SearchRow) :
    ∀ (cs : List CraigslistListing) (st : LoopState), ∃ news,
      (scanLoop env search st cs).db.listings = st.db.listings ++ news ∧
      ∀ r ∈ news, r.searchId = search.id ∧ r.alertSent = false := by
  intro cs
  induction cs with
  | nil =>
    intro st
    exact ⟨[], by simp [scanLoop], by simp⟩
  | cons c rest ih =>
    intro st
    obtain ⟨news, hn, hprop⟩ := ih (processCandidate env search st c)
    unfold scanLoop at hn ⊢
    rw [List.foldl_cons]
    rw [processCandidate_db] at hn
    by_cases h : listingExists st.db search.id c.externalId
    · simp only [h, if_true] at hn
      exact ⟨news, hn, hprop⟩
    · simp only [h, if_false, Bool.false_eq_true] at hn
      refine ⟨newListingRow search c
          (evaluateListing env.respond env.jsonParse (listingForEval search c)) :: news,
        ?_, ?_⟩
      · rw [hn]
        simp
      · intro r hr
        rcases List.mem_cons.mp hr with hr | hr
        · subst hr
          exact ⟨rfl, rfl⟩
        · exact hprop r hr

/-- The bulk update leaves the search id of a row unchanged. -/
theorem flipAlert_searchId (sid : String) (l : ListingRow) :
    (flipAlert sid l).searchId = l.searchId := by
  unfold flipAlert
  split <;> rfl

/-- The bulk update leaves the good-deal flag of a row unchanged. -/
theorem flipAlert_isGoodDeal (sid : String) (l : ListingRow) :
    (flipAlert sid l).isGoodDeal = l.isGoodDeal := by
  unfold flipAlert
  split <;> rfl

/-- The bulk update marks a matching unsent good-deal row. -/
theorem flipAlert_sets (sid : String) (l : ListingRow)
    (h1 : l.searchId = sid) (h2 : l.isGoodDeal = true) (h3 : l.alertSent = false) :
    (flipAlert sid l).alertSent = true := by
  simp [flipAlert, h1, h2, h3]

/-- A row whose alert was already sent is untouched by the bulk update. -/
theorem flipAlert_of_sent (sid : String) (l : ListingRow) (h : l.alertSent = true) :
    flipAlert sid l = l := by
  simp [flipAlert, h]

/-- A row of another search is untouched by the bulk update. -/
theorem flipAlert_of_other (sid : String) (l : ListingRow) (h : l.searchId ≠ sid) :
    flipAlert sid l = l := by
  simp [flipAlert, h]

/-- The database reached by a scan that passes every guard and whose
notification succeeds. -/
theorem processSearch_notify_db
    (env : ScanEnv) (db : DB) (sid : String) (search : SearchRow)
    (hf : findSearch db sid = some search)
    (ha : search.isActive = true)
    (hk : env.apiKeyPresent = true)
    (hbe : (scanState env search db).dealsToAlert.isEmpty = false)
    (hm : env.sendEmail (alertParamsOf env search db) = true) :
    (processSearch env db sid).1
      = markAlerts (updateLastChecked (scanState env search db).db search.id env.now)
          search.id := by
  unfold processSearch
  rw [hf]
  simp only [ha, hk, Bool.not_true, Bool.false_eq_true, if_false, hbe, hm, if_true]

/-- C5 (amended): after a scan whose notification succeeds, the bulk
update applies flipAlert scoped to this search to every previously
persisted row — so exactly the rows of this search with a good deal and
an unsent alert are marked, which covers every listing of this scans
alert batch but also any unsent good-deal listing left over from an
earlier scan; rows already marked sent and rows of other searches are
untouched. -/
theorem markAlerts_scope
    (env : ScanEnv) (db : DB) (sid : String) (search : SearchRow)
    (hf : findSearch db sid = some search)
    (ha : search.isActive = true)
    (hk : env.apiKeyPresent = true)
    (hb : (scanState env search db).dealsToAlert ≠ [])
    (hm : env.sendEmail (alertParamsOf env search db) = true) :
    (∃ news,
      (processSearch env db sid).1.listings
        = db.listings.map (flipAlert search.id) ++ news ∧
      ∀ r ∈ news, r.searchId = search.id ∧ (r.isGoodDeal = true → r.alertSent = true)) ∧
    (∀ l : ListingRow, l.alertSent = true → flipAlert search.id l = l) ∧
    (∀ l : ListingRow, l.searchId ≠ search.id → flipAlert search.id l = l) := by
  have hbe : (scanState env search db).dealsToAlert.isEmpty = false := by
    cases hd : (scanState env search db).dealsToAlert with
    | nil => exact absurd hd hb
    | cons a t => rfl
  have hps := processSearch_notify_db env db sid search hf ha hk hbe hm
  obtain ⟨news0, hn, hprop⟩ := scanLoop_listings env search
    (env.fetch search.query search.zipcode (fetchOptionsOf search)) ⟨db, 0, 0, []⟩
  refine ⟨⟨news0.map (flipAlert search.id), ?_, ?_⟩,
    fun l h => flipAlert_of_sent _ l h, fun l h => flipAlert_of_other _ l h⟩
  · rw [hps]
    have hms : (markAlerts (updateLastChecked (scanState env search db).db
          search.id env.now) search.id).listings
        = (scanState env search db).db.listings.map (flipAlert search.id) := rfl
    rw [hms]
    unfold scanState
    rw [hn, List.map_append]
  · intro r hr
    obtain ⟨r0, hr0, rfl⟩ := List.mem_map.mp hr
    obtain ⟨hsid, hsent⟩ := hprop r0 hr0
    refine ⟨(flipAlert_searchId _ _).trans hsid, fun hg => ?_⟩
    have hg0 : r0.isGoodDeal = true := by
      rw [← flipAlert_isGoodDeal search.id r0]
      exact hg
    exact flipAlert_sets search.id r0 hsid hg0 hsent

/-- C5 counterexample: a good-deal listing persisted by a previous scan
with an unsent alert is outside this scans alert batch (which holds only
the new listing), yet the bulk update after a successful notification
flips its flag from false to true. -/
theorem bulk_update_flips_prior_unsent :
    oldRow.alertSent = false ∧
    (scanState env5 search5 db5).dealsToAlert.map (fun d => d.title) = ["good bike"] ∧
    lookupListing (processSearch env5 db5 "s1").1 "s1" "6000"
      = some { oldRow with alertSent := true } :=
  ⟨rfl, rfl, rfl⟩

/-- C5 witness: the amended bulk-update characterisation at the
concrete scan that also exhibits the counterexample. -/
theorem markAlerts_scope_witness :
    (∃ news,
      (processSearch env5 db5 "s1").1.listings
        = db5.listings.map (flipAlert search5.id) ++ news ∧
      ∀ r ∈ news, r.searchId = search5.id ∧ (r.isGoodDeal = true → r.alertSent = true)) ∧
    (∀ l : ListingRow, l.alertSent = true → flipAlert search5.id l = l) ∧
    (∀ l : ListingRow, l.searchId ≠ search5.id → flipAlert search5.id l = l) :=
  markAlerts_scope env5 db5 "s1" search5 rfl rfl rfl
    (by
      have hlen : (scanState env5 search5 db5).dealsToAlert.length = 1 := rfl
      intro h
      rw [h] at hlen
      simp at hlen)
    rfl

/-- List form of the lastChecked update: updating the rows under an id
and then searching for that id finds the updated version of the row the
search would have found. -/
theorem find?_map_update (sid : String) (now : ℕ) :
    ∀ l : List SearchRow,
      (l.map (fun s => if s.id == sid then { s with lastChecked := some now } else s)).find?
          (fun s => s.id == sid)
        = (l.find? (fun s => s.id == sid)).map
            (fun s => { s with lastChecked := some now }) := by
  intro l
  induction l with
  | nil => rfl
  | cons s rest ih =>
    rw [List.map_cons]
    by_cases h : (s.id == sid) = true
    · rw [if_pos h]
      have e1 : ({ s with lastChecked := some now } ::
            rest.map (fun s => if s.id == sid then { s with lastChecked := some now }
              else s)).find? (fun s => s.id == sid)
          = some { s with lastChecked := some now } := by
        apply List.find?_cons_of_pos
        exact h
      have e2 : (s :: rest).find? (fun s => s.id == sid) = some s := by
        apply List.find?_cons_of_pos
        exact h
      rw [e1, e2]
      rfl
    · rw [if_neg h]
      have e1 : (s :: rest.map (fun s => if s.id == sid
              then { s with lastChecked := some now } else s)).find?
            (fun s => s.id == sid)
          = (rest.map (fun s => if s.id == sid then { s with lastChecked := some now }
              else s)).find? (fun s => s.id == sid) := by
        apply List.find?_cons_of_neg
        exact h
      have e2 : (s :: rest).find? (fun s => s.id == sid)
          = rest.find? (fun s => s.id == sid) := by
        apply List.find?_cons_of_neg
        exact h
      rw [e1, e2, ih]

/-- The lastChecked update rewrites exactly the row found under the
updated id. -/
theorem findSearch_update (db : DB) (sid : String) (now : ℕ) :
    findSearch (updateLastChecked db sid now) sid
      = (findSearch db sid).map (fun s => { s with lastChecked := some now }) := by
  unfold findSearch updateLastChecked
  exact find?_map_update sid now db.searches

/-- find? only returns elements satisfying the predicate (restated with
the predicate explicit, to pin down its instantiation). -/
theorem find?_pred {α : Type} (p : α → Bool) (l : List α) (a : α)
    (h : l.find? p = some a) : p a = true :=
  List.find?_some h

/-- findSearch reads only the searches table. -/
theorem findSearch_congr (d1 d2 : DB) (sid : String) (h : d1.searches = d2.searches) :
    findSearch d1 sid = findSearch d2 sid := by
  unfold findSearch
  rw [h]

/-- The searches table reached by a scan that passes every guard. -/
theorem processSearch_searches
    (env : ScanEnv) (db : DB) (sid : String) (search : SearchRow)
    (hf : findSearch db sid = some search)
    (ha : search.isActive = true)
    (hk : env.apiKeyPresent = true) :
    (processSearch env db sid).1.searches
      = (updateLastChecked (scanState env search db).db search.id env.now).searches := by
  unfold processSearch
  rw [hf]
  simp only [ha, hk, Bool.not_true, Bool.false_eq_true, if_false]
  split
  · rfl
  · split <;> rfl

/-- C6 counterexample: on an existing active search with the AI
credential missing, the scan returns zero counts and leaves the whole
database — in particular the lastChecked timestamp, still unset —
unchanged, although the claim asserts the timestamp is updated
regardless of outcome. -/
theorem lastChecked_skipped_on_missing_credential :
    env6.apiKeyPresent = false ∧
    (processSearch env6 db6 "s1").2 = ⟨0, 0, 0⟩ ∧
    (findSearch (processSearch env6 db6 "s1").1 "s1").map (fun s => s.lastChecked)
      = some none :=
  ⟨rfl, rfl, rfl⟩

/-- C6 (amended): the lastChecked timestamp is set to the scan clock
whenever the search exists, is active and the AI credential is present,
regardless of the acquisition, evaluation and notification outcomes;
when the credential is missing the scan instead returns zero counts
with the database, lastChecked included, unchanged. -/
theorem lastChecked_updated_cases
    (env : ScanEnv) (db : DB) (sid : String) (search : SearchRow)
    (hf : findSearch db sid = some search)
    (ha : search.isActive = true)
    (hk : env.apiKeyPresent = true) :
    ((findSearch (processSearch env db sid).1 sid).map (fun s => s.lastChecked)
      = some (some env.now)) ∧
    (∀ (env2 : ScanEnv) (db2 : DB) (sid2 : String), env2.apiKeyPresent = false →
      processSearch env2 db2 sid2 = (db2, ⟨0, 0, 0⟩)) := by
  constructor
  · have hid0 := find?_pred (fun (s : SearchRow) => s.id == sid) db.searches search hf
    have hid : search.id = sid := eq_of_beq hid0
    have e1 : findSearch (processSearch env db sid).1 sid
        = findSearch (updateLastChecked (scanState env search db).db search.id env.now)
            sid := by
      unfold findSearch
      rw [processSearch_searches env db sid search hf ha hk]
    have e2 : findSearch (scanState env search db).db sid = findSearch db sid := by
      apply findSearch_congr
      unfold scanState
      rw [scanLoop_searches env search]
    rw [e1, hid, findSearch_update, e2, hf]
    rfl
  · intro env2 db2 sid2 h2
    unfold processSearch
    cases hf2 : findSearch db2 sid2 with
    | none => rfl
    | some s2 =>
      by_cases ha2 : s2.isActive = true
      · simp [ha2, h2]
      · simp [ha2]

/-- C6 witness: the timestamp is set on a passing scan and skipped on a
credential-missing scan, at concrete inputs. -/
theorem lastChecked_updated_cases_witness :
    ((findSearch (processSearch env5 db5 "s1").1 "s1").map (fun s => s.lastChecked)
      = some (some 7)) ∧
    processSearch env6 db6 "s1" = (db6, ⟨0, 0, 0⟩) :=
  have h := lastChecked_updated_cases env5 db5 "s1" search5 rfl rfl rfl
  ⟨h.1, h.2 env6 db6 "s1" rfl⟩

/-- Running the batch loop from an already-accumulated counter triple
shifts the final counters by that triple. -/
theorem runBatch_shift (benv : BatchEnv) :
    ∀ (sids : List String) (db : DB) (t : ℕ × ℕ × ℕ),
      sids.foldl (batchStep benv) (db, t)
        = ((runBatch benv db sids).1, addCounts t (runBatch benv db sids).2) := by
  intro sids
  induction sids with
  | nil =>
    intro db t
    simp [runBatch, addCounts]
  | cons sid rest ih =>
    intro db t
    rw [List.foldl_cons]
    have hrb : runBatch benv db (sid :: rest)
        = rest.foldl (batchStep benv) (batchStep benv (db, 0, 0, 0) sid) := by
      unfold runBatch
      rw [List.foldl_cons]
    cases h : runOneSearch benv db sid with
    | ok db2 r =>
      have hstep : batchStep benv (db, t) sid
          = (db2, t.1 + r.newListings, t.2.1 + r.goodDeals, t.2.2 + r.alertsSent) := by
        unfold batchStep
        rw [h]
      have hstep0 : batchStep benv (db, (0 : ℕ), (0 : ℕ), (0 : ℕ)) sid
          = (db2, 0 + r.newListings, 0 + r.goodDeals, 0 + r.alertsSent) := by
        unfold batchStep
        rw [h]
      rw [hstep, ih, hrb, hstep0, ih]
      simp only [addCounts, Prod.mk.injEq, eq_self_iff_true, true_and, and_true]
      omega
    | threw db2 =>
      have hstep : batchStep benv (db, t) sid = (db2, t) := by
        unfold batchStep
        rw [h]
      have hstep0 : batchStep benv (db, (0 : ℕ), (0 : ℕ), (0 : ℕ)) sid
          = (db2, 0, 0, 0) := by
        unfold batchStep
        rw [h]
      rw [hstep, ih, hrb, hstep0, ih]
      simp only [addCounts, Prod.mk.injEq, eq_self_iff_true, true_and, and_true]
      omega

/-- C7: processAllSearches reports the number of active searches as
searchesProcessed whatever the per-search outcomes, and a search whose
processing throws contributes nothing to the aggregate counts while the
remaining searches still run from the state the failure left behind,
with their contributions fully included. -/
theorem batch_failure_isolation (benv : BatchEnv) (db : DB) :
    ((processAllSearches benv db).2.searchesProcessed
      = (db.searches.filter (fun s => s.isActive)).length) ∧
    (∀ (pre post : List String) (bad : String), benv.throws bad = true →
      runBatch benv db (pre ++ bad :: post)
        = ((runBatch benv (benv.partialDb bad (runBatch benv db pre).1) post).1,
           addCounts (runBatch benv db pre).2
             (runBatch benv (benv.partialDb bad (runBatch benv db pre).1) post).2)) := by
  constructor
  · rfl
  · intro pre post bad hbad
    have h1 : runBatch benv db (pre ++ bad :: post)
        = (bad :: post).foldl (batchStep benv) (runBatch benv db pre) := by
      unfold runBatch
      rw [List.foldl_append]
    have h2 : batchStep benv (runBatch benv db pre) bad
        = (benv.partialDb bad (runBatch benv db pre).1, (runBatch benv db pre).2) := by
      unfold batchStep runOneSearch
      rw [hbad]
      simp
    rw [h1, List.foldl_cons, h2]
    exact runBatch_shift benv post
      (benv.partialDb bad (runBatch benv db pre).1) (runBatch benv db pre).2

/-- C7 witness: three active searches with the middle one throwing; the
batch still reports three searches processed and decomposes into the
contributions of the first and third. -/
theorem batch_failure_isolation_witness :
    ((processAllSearches benv7 db7).2.searchesProcessed
      = (db7.searches.filter (fun s => s.isActive)).length) ∧
    runBatch benv7 db7 (["a"] ++ "b" :: ["c"])
      = ((runBatch benv7 (benv7.partialDb "b" (runBatch benv7 db7 ["a"]).1) ["c"]).1,
         addCounts (runBatch benv7 db7 ["a"]).2
           (runBatch benv7 (benv7.partialDb "b" (runBatch benv7 db7 ["a"]).1) ["c"]).2) :=
  have h := batch_failure_isolation benv7 db7
  ⟨h.1, h.2 ["a"] ["c"] "b" rfl⟩

/-! ## Claim theorems: the acquisition adapter -/

/-- C8: when loading the search results page fails outright — the
navigation times out or the results selector never appears — the
adapter returns the empty list; the embedding is a total function, so
nothing is raised to the caller. -/
theorem fetch_total_failure_empty
    (env : BrowserEnv) (query zipcode : String) (options : FetchOptions)
    (h : env.nav (buildSearchUrl query zipcode
          { minPrice := options.minPrice, maxPrice := options.maxPrice, radius := none })
        = .navFail ∨
      env.nav (buildSearchUrl query zipcode
          { minPrice := options.minPrice, maxPrice := options.maxPrice, radius := none })
        = .selectorFail) :
    fetchCraigslistListings env query zipcode options = [] := by
  unfold fetchCraigslistListings
  rcases h with h | h <;> simp only [h]

/-- C8 witness: a browser whose every navigation times out yields the
empty listing set. -/
theorem fetch_total_failure_empty_witness :
    fetchCraigslistListings env8 "bike" "94110" ⟨none, none, none⟩ = [] :=
  fetch_total_failure_empty env8 "bike" "94110" ⟨none, none, none⟩ (Or.inl rfl)

/-- None of the five always-present search parameters is a price
parameter. -/
theorem base_params_no_price_key (query zipcode : String) (r : ℚ)
    (kv : String × String)
    (hkv : kv ∈ [("query", query), ("postal", zipcode),
      ("search_distance", qToString r), ("sort", "date"), ("postedToday", "1")]) :
    kv.1 ≠ "min_price" ∧ kv.1 ≠ "max_price" := by
  simp only [List.mem_cons, List.not_mem_nil, or_false] at hkv
  rcases hkv with rfl | rfl | rfl | rfl | rfl <;> exact ⟨by simp, by simp⟩

/-- The max-price step of the parameter construction starting from any
prefix only ever appends a max_price entry. -/
theorem maxStep_mem (o : BuildOptions) (pre : List (String × String))
    (kv : String × String)
    (hkv : kv ∈ (match o.maxPrice with
      | some m => if m = 0 then pre else pre ++ [("max_price", qToString m)]
      | none => pre)) :
    kv ∈ pre ∨ ∃ m : ℚ, kv = ("max_price", qToString m) := by
  rcases hmax : o.maxPrice with _ | m <;> rw [hmax] at hkv <;>
    simp only [] at hkv
  · exact Or.inl hkv
  · by_cases hm : m = 0
    · rw [if_pos hm] at hkv
      exact Or.inl hkv
    · rw [if_neg hm] at hkv
      rcases List.mem_append.mp hkv with hkv | hkv
      · exact Or.inl hkv
      · simp only [List.mem_cons, List.not_mem_nil, or_false] at hkv
        exact Or.inr ⟨m, hkv⟩

/-- The search parameter list never carries a min_price key when the
minimum bound is absent or zero. -/
theorem searchParams_no_min_price (query zipcode : String) (o : BuildOptions)
    (ho : o.minPrice = none ∨ o.minPrice = some 0) :
    ∀ kv ∈ searchParams query zipcode o, kv.1 ≠ "min_price" := by
  intro kv hkv
  unfold searchParams at hkv
  simp only [] at hkv
  have hmin : (match o.minPrice with
      | some m => if m = 0
          then [("query", query), ("postal", zipcode),
            ("search_distance", qToString (match o.radius with
              | some r => if r = 0 then 25 else r
              | none => 25)), ("sort", "date"), ("postedToday", "1")]
          else [("query", query), ("postal", zipcode),
            ("search_distance", qToString (match o.radius with
              | some r => if r = 0 then 25 else r
              | none => 25)), ("sort", "date"), ("postedToday", "1")]
            ++ [("min_price", qToString m)]
      | none => [("query", query), ("postal", zipcode),
          ("search_distance", qToString (match o.radius with
            | some r => if r = 0 then 25 else r
            | none => 25)), ("sort", "date"), ("postedToday", "1")])
      = [("query", query), ("postal", zipcode),
          ("search_distance", qToString (match o.radius with
            | some r => if r = 0 then 25 else r
            | none => 25)), ("sort", "date"), ("postedToday", "1")] := by
    rcases ho with ho | ho <;> rw [ho]
    simp
  rw [hmin] at hkv
  rcases maxStep_mem o _ kv hkv with hkv | ⟨m, rfl⟩
  · exact (base_params_no_price_key query zipcode _ kv hkv).1
  · simp

/-- The min-price step of the parameter construction starting from any
prefix only ever appends a min_price entry. -/
theorem minStep_mem (o : BuildOptions) (pre : List (String × String))
    (kv : String × String)
    (hkv : kv ∈ (match o.minPrice with
      | some m => if m = 0 then pre else pre ++ [("min_price", qToString m)]
      | none => pre)) :
    kv ∈ pre ∨ ∃ m : ℚ, kv = ("min_price", qToString m) := by
  rcases hmin : o.minPrice with _ | m <;> rw [hmin] at hkv <;>
    simp only [] at hkv
  · exact Or.inl hkv
  · by_cases hm : m = 0
    · rw [if_pos hm] at hkv
      exact Or.inl hkv
    · rw [if_neg hm] at hkv
      rcases List.mem_append.mp hkv with hkv | hkv
      · exact Or.inl hkv
      · simp only [List.mem_cons, List.not_mem_nil, or_false] at hkv
        exact Or.inr ⟨m, hkv⟩

/-- The search parameter list never carries a max_price key when the
maximum bound is absent or zero. -/
theorem searchParams_no_max_price (query zipcode : String) (o : BuildOptions)
    (ho : o.maxPrice = none ∨ o.maxPrice = some 0) :
    ∀ kv ∈ searchParams query zipcode o, kv.1 ≠ "max_price" := by
  intro kv hkv
  unfold searchParams at hkv
  simp only [] at hkv
  have hout : kv ∈ (match o.minPrice with
      | some m => if m = 0
          then [("query", query), ("postal", zipcode),
            ("search_distance", qToString (match o.radius with
              | some r => if r = 0 then 25 else r
              | none => 25)), ("sort", "date"), ("postedToday", "1")]
          else [("query", query), ("postal", zipcode),
            ("search_distance", qToString (match o.radius with
              | some r => if r = 0 then 25 else r
              | none => 25)), ("sort", "date"), ("postedToday", "1")]
            ++ [("min_price", qToString m)]
      | none => [("query", query), ("postal", zipcode),
          ("search_distance", qToString (match o.radius with
            | some r => if r = 0 then 25 else r
            | none => 25)), ("sort", "date"), ("postedToday", "1")]) := by
    rcases ho with ho | ho <;> rw [ho] at hkv <;> simp only [] at hkv <;>
      exact hkv
  rcases minStep_mem o _ kv hout with hkv2 | ⟨m, rfl⟩
  · exact (base_params_no_price_key query zipcode _ kv hkv2).2
  · simp

/-- C10: a price bound of exactly 0 is treated as absent end to end:
the scheduler converts a stored 0 cent bound to an undefined acquisition
option, and the URL builder omits the min_price and max_price query
parameters whenever the corresponding option is 0 or undefined — so a
zero bound never constrains the marketplace search. -/
theorem zero_price_bound_never_constrains :
    (∀ s : SearchRow, s.minPrice = some 0 → (fetchOptionsOf s).minPrice = none) ∧
    (∀ s : SearchRow, s.maxPrice = some 0 → (fetchOptionsOf s).maxPrice = none) ∧
    (∀ (query zipcode : String) (o : BuildOptions),
      o.minPrice = none ∨ o.minPrice = some 0 →
      ∀ kv ∈ searchParams query zipcode o, kv.1 ≠ "min_price") ∧
    (∀ (query zipcode : String) (o : BuildOptions),
      o.maxPrice = none ∨ o.maxPrice = some 0 →
      ∀ kv ∈ searchParams query zipcode o, kv.1 ≠ "max_price") := by
  refine ⟨?_, ?_, ?_, ?_⟩
  · intro s h
    simp [fetchOptionsOf, centsBound, h]
  · intro s h
    simp [fetchOptionsOf, centsBound, h]
  · exact fun query zipcode o ho => searchParams_no_min_price query zipcode o ho
  · exact fun query zipcode o ho => searchParams_no_max_price query zipcode o ho

/-- C10 witness: a search row with both bounds stored as 0 passes both
acquisition options as undefined, and the built parameter list for
explicit zero or absent bounds has no price keys. -/
theorem zero_price_bound_never_constrains_witness :
    (fetchOptionsOf searchZeroMin).minPrice = none ∧
    (fetchOptionsOf searchZeroMin).maxPrice = none ∧
    (∀ kv ∈ searchParams "bike" "94110" opts10, kv.1 ≠ "min_price") ∧
    (∀ kv ∈ searchParams "bike" "94110" opts10, kv.1 ≠ "max_price") :=
  have h := zero_price_bound_never_constrains
  ⟨h.1 searchZeroMin rfl, h.2.1 searchZeroMin rfl,
   h.2.2.1 "bike" "94110" opts10 (Or.inr rfl),
   h.2.2.2 "bike" "94110" opts10 (Or.inl rfl)⟩
